import Mathlib

/-!
Verification development for the `pg_temp` temporary-Postgres lifecycle
controller (`pg_temp/pg_temp.py`).

The Python module is shallowly embedded as follows.

* Instance attributes of the `TempDB` object are modelled by the record
  `TDState`.  Python objects acquire attributes dynamically, so every field
  is wrapped in an outer `Option`: `none` means "attribute was never
  assigned" (reading it raises `AttributeError`), `some v` means the
  attribute holds value `v`.  Where the attribute's value can itself be
  Python `None`, the inner type is again an `Option`.

* Python truthiness is modelled explicitly: `None` and the empty
  string/list are falsy, everything else the code stores is truthy.

* Exceptions are modelled by `Except PyErr`.  External effects
  (filesystem calls, subprocesses) are oracles supplied in `FsEnv` /
  `ProbeEnv`; each oracle returns `Except PyErr` so that any stage can
  fail with an arbitrary exception, exactly as the corresponding library
  call can in Python.

* `subprocess` side effects performed by `cleanup` are reified as a list
  of `CleanupAct` actions so that theorems can talk about what cleanup
  does without running processes.
-/

/-- Python exceptions that the embedded code can raise or propagate:
`PGSetupError(msg)`, OS-level errors from library calls, `AttributeError`
for reading a never-assigned attribute, and `TypeError`. -/
inductive PyErr
  | pgSetupError (msg : String)
  | osError (msg : String)
  | attributeError (attr : String)
  | typeError (msg : String)
deriving DecidableEq, Repr

/-- The value stored in the `pg_process` attribute.  The constructor sets
it to `None` (`pnone`); `run_cmd(..., bg=True)` stores a `Popen` handle
(`proc`); `run_cmd(..., bg=False)` returns the boolean
`returncode == 0`, which `create_db_server` stores in docker mode
(`rc`). -/
inductive PgVal
  | pnone
  | proc (h : Nat)
  | rc (b : Bool)
deriving DecidableEq, Repr

/-- Python truthiness of a `pg_process` value: `None` is falsy, a `Popen`
handle is truthy, a stored boolean is its own truth value. -/
def PgVal.truthy : PgVal → Bool
  | .pnone => false
  | .proc _ => true
  | .rc b => b

/-- Python truthiness of an optional string value (`None` and `""` are
falsy). -/
def pyTruthyS : Option String → Bool
  | some x => !(x == "")
  | none => false

/-- Python truthiness of an optional list value (`None` and `[]` are
falsy). -/
def pyTruthyL : Option (List String) → Bool
  | some (_ :: _) => true
  | _ => false

/-- Attribute state of a `TempDB` instance.  Outer `Option`: `none` =
attribute never assigned (reading raises `AttributeError`). -/
structure TDState where
  /-- `self.docker_prefix`: `None` or an argv fragment. -/
  docker_prefix_cmd : Option (Option (List String)) := none
  /-- `self.docker_container`: `None` or the container id string. -/
  docker_container : Option (Option String) := none
  /-- `self.docker_img`: `None` or an image name. -/
  docker_img : Option (Option String) := none
  /-- `self.pg_process`. -/
  pg_process : Option PgVal := none
  /-- `self.run_as`: `None` or a resolved account (identity abstracted). -/
  run_as : Option (Option Unit) := none
  /-- `self.current_user`. -/
  current_user : Option String := none
  /-- `self.pg_temp_dir`: `None` (caller supplied the base directory) or
  the controller-allocated temporary directory. -/
  pg_temp_dir : Option (Option String) := none
  /-- `self.pg_data_dir`. -/
  pg_data_dir : Option String := none
  /-- `self.pg_socket_dir`. -/
  pg_socket_dir : Option String := none
  /-- `self._real_pg_socket_dir` (docker mode only). -/
  real_pg_socket_dir : Option String := none
deriving DecidableEq, Repr

/-- Side effects performed by `TempDB.cleanup`, reified.  `dockerKill cid
stdoutToDevnull` is `subprocess.run([DEFAULT_DOCKER_EXE, 'kill', cid],
stdout=DEVNULL)` (the flag records that stdout is suppressed; stderr is
not redirected by the source).  `rmtree d ignoreErrors` is
`shutil.rmtree(d, ignore_errors=True)`. -/
inductive CleanupAct
  | dockerKill (cid : String) (stdoutToDevnull : Bool)
  | procKill
  | procWait
  | rmtree (d : String) (ignoreErrors : Bool)
deriving DecidableEq, Repr

/-- Module constants of `pg_temp.py`. -/
def DEFAULT_DOCKER_EXE : String := "docker"

/-- `DOCKER_INTERNAL_SOCK_DIR` constant. -/
def DOCKER_INTERNAL_SOCK_DIR : String := "/var/run/postgresql"

/-- `FALLBACK_DOCKER_IMG` constant. -/
def FALLBACK_DOCKER_IMG : String := "postgres"

/-- `DEFAULT_POSTGRES` constant. -/
def DEFAULT_POSTGRES : String := "postgres"

/-- The `if self.pg_process:` branch of `cleanup`: kill the process and
wait for it when the handle is truthy.  Raises `AttributeError` if
`pg_process` was never assigned. -/
def cleanup_proc (s : TDState) : Except PyErr (List CleanupAct) :=
  match s.pg_process with
  | none => .error (.attributeError "pg_process")
  | some p => if p.truthy then .ok [CleanupAct.procKill, CleanupAct.procWait] else .ok []

/-- The kill half of `cleanup`: `if self.docker_container:` issues a
forced `docker kill` with stdout suppressed and does not touch the
process handle; otherwise falls through to the `elif self.pg_process:`
branch. -/
def cleanup_kill (s : TDState) : Except PyErr (List CleanupAct) :=
  match s.docker_container with
  | none => .error (.attributeError "docker_container")
  | some (some c) =>
      if c = "" then cleanup_proc s else .ok [CleanupAct.dockerKill c true]
  | some none => cleanup_proc s

/-- `for d in [self.pg_temp_dir]: if d: shutil.rmtree(d,
ignore_errors=True)` — the directory is removed only when the attribute
holds a truthy (non-`None`, non-empty) path. -/
def rmtreeActs : Option String → List CleanupAct
  | some d => if d = "" then [] else [CleanupAct.rmtree d true]
  | none => []

/-- `TempDB.cleanup`.  Returns the performed actions (or the exception
the attribute reads raise) together with the post-state; the source
assigns no attribute in `cleanup`, so the state is returned unchanged. -/
def cleanup (s : TDState) : Except PyErr (List CleanupAct) × TDState :=
  (match cleanup_kill s with
   | .error e => .error e
   | .ok k =>
       match s.pg_temp_dir with
       | none => .error (.attributeError "pg_temp_dir")
       | some td => .ok (k ++ rmtreeActs td), s)

/-- `true` iff an `Except` computation succeeded. -/
def isOkE {ε α : Type} : Except ε α → Bool
  | .ok _ => true
  | .error _ => false

deriving instance DecidableEq for Except

/-- Result of `TempDB._get_docker_fallback`: the (possibly updated)
`docker_img` value, whether `warnings.warn` was invoked, and which
executables `shutil.which` was asked to locate, in order. -/
structure FallbackResult where
  docker_img : Option String
  warned : Bool
  which_calls : List String
deriving DecidableEq, Repr

/-- `TempDB._get_docker_fallback(postgres_exe)`.  `which_postgres` /
`which_docker` are the outcomes `shutil.which(DEFAULT_POSTGRES)` /
`shutil.which(DEFAULT_DOCKER_EXE)` would deliver; `docker_img` is the
current value of `self.docker_img`. -/
def get_docker_fallback (which_postgres which_docker : Bool)
    (docker_img : Option String) (postgres_exe : String) :
    Except PyErr FallbackResult :=
  -- if self.docker_img: return  (already using docker)
  if pyTruthyS docker_img then .ok ⟨docker_img, false, []⟩
  -- if postgres_exe != DEFAULT_POSTGRES: return  (explicit exe, no fallback)
  else if postgres_exe ≠ DEFAULT_POSTGRES then .ok ⟨docker_img, false, []⟩
  else if !which_postgres then
    if !which_docker then
      .error (.pgSetupError "Unable to locate a postgres installation")
    else
      -- warnings.warn(...); self.docker_img = FALLBACK_DOCKER_IMG
      .ok ⟨some FALLBACK_DOCKER_IMG, true, [DEFAULT_POSTGRES, DEFAULT_DOCKER_EXE]⟩
  else .ok ⟨docker_img, false, [DEFAULT_POSTGRES]⟩

/-- `TempDB._get_run_as_account(None)` as invoked by the constructor:
the explicit-account branch is dead (`run_as` is `None`); if the caller
is root, the `postgres` account must exist, otherwise no privilege
switch is required. -/
def get_run_as_account (euid : Nat) (pw_postgres_exists : Bool) :
    Except PyErr (Option Unit) :=
  if euid = 0 then
    if pw_postgres_exists then .ok (some ())
    else .error (.pgSetupError
      "Can\x27t create DB server as root, and there\x27s no postgres user!")
  else .ok none

/-- A character `shlex.quote` leaves unquoted (the complement of
Python's `_find_unsafe` character class: word characters and
`@ % + = : , .` plus slash and dash). -/
def shlexSafeChar (c : Char) : Bool :=
  c.isAlphanum || c = '_' || c = '@' || c = '%' || c = '+' || c = '=' ||
    c = ':' || c = ',' || c = '.' || c = '/' || c = '-'

/-- Python `shlex.quote`. -/
def shlex_quote (s : String) : String :=
  if s = "" then "\x27\x27"
  else if s.all shlexSafeChar then s
  else "\x27" ++ (s.replace "\x27" "\x27\"\x27\"\x27") ++ "\x27"

/-- `TempDB._user_subshell(cmd)`: when a run-as account was resolved,
rewrite the argv into `su - postgres -c '<quoted cmd>'`; otherwise
return the argv unchanged. -/
def user_subshell (run_as : Option Unit) (cmd : List String) : List String :=
  match run_as with
  | none => cmd
  | some _ =>
      ["su", "-", "postgres", "-c", String.intercalate " " (cmd.map shlex_quote)]

/-- The argv actually spawned by `TempDB.run_cmd(cmd, ...)`:
`if self.docker_prefix:` (truthy, i.e. a non-empty list) the docker
prefix is prepended, `else` the command is wrapped by
`_user_subshell`. -/
def runCmdArgv (docker_prefix_val : Option (List String)) (run_as : Option Unit)
    (cmd : List String) : List String :=
  match docker_prefix_val with
  | some (a :: p) => a :: p ++ cmd
  | some [] => user_subshell run_as cmd
  | none => user_subshell run_as cmd

/-- The `mode` argument of `TempDB._setup_docker_prefix`. -/
inductive DPMode
  | init
  | exec
deriving DecidableEq, Repr

/-- `TempDB._setup_docker_prefix(*args, mode)`: store the docker argv
fragment for `run_cmd` to prepend. -/
def setup_docker_prefix_cmd (mode : DPMode) (args : List String) (s : TDState) :
    TDState :=
  match mode with
  | .init =>
      { s with docker_prefix_cmd := some (some
          [DEFAULT_DOCKER_EXE, "run", "--rm", "-e",
           "POSTGRES_HOST_AUTH_METHOD=trust", "--user=postgres"]) }
  | .exec =>
      { s with docker_prefix_cmd := some (some
          ([DEFAULT_DOCKER_EXE, "exec", "--user=postgres"] ++ args)) }

/-- `TempDB.create_databases`, loop body.  `run1 db` is the outcome of
`self.run_cmd(cmd)` for the creation command of `db`: `.ok b` is the
exit status (`b = true` iff zero), `.error e` a raised exception.
`rc = rc and self.run_cmd(cmd)` evaluates `run_cmd` only when `rc` is
still true (Python `and` short-circuits); after the loop a single
`PGSetupError` is raised if `rc` is false.  Returns the list of
database names for which a creation command was issued, and the
result. -/
def create_databases_go (run1 : String → Except PyErr Bool) :
    List String → Bool → List String × Except PyErr Bool
  | [], rc =>
      ([], if rc then .ok rc
           else .error (.pgSetupError "Couldn\x27t create databases"))
  | db :: rest, rc =>
      if rc then
        match run1 db with
        | .error e => ([db], .error e)
        | .ok b =>
            let r := create_databases_go run1 rest b
            (db :: r.1, r.2)
      else
        -- rc is falsy: `rc and self.run_cmd(cmd)` does not call run_cmd
        create_databases_go run1 rest false

/-- `TempDB.create_databases(psql, databases)` (command issuance
trace and result). -/
def create_databases (run1 : String → Except PyErr Bool) (databases : List String) :
    List String × Except PyErr Bool :=
  create_databases_go run1 databases true

/-- The caller-order list of names `create_databases` actually issues a
creation command for, when every issued command returns an exit status
`exec db`: all names up to and including the first failing one. -/
def issued_through_first_failure (exec : String → Bool) : List String → List String
  | [] => []
  | db :: rest =>
      if exec db then db :: issued_through_first_failure exec rest else [db]

/-- Observable events of `TempDB.test_connection`: `sleep t` is
`time.sleep(tincr)` (the interval `t` of type `τ` abstracts the float
`tincr`), `probe rc` a completed probe (`run_cmd` of the `psql`
introspection command) with exit-zero flag `rc`, `probeErr` a probe
during which `run_cmd` itself raised. -/
inductive PEvent (τ : Type)
  | sleep (t : τ)
  | probe (rc : Bool)
  | probeErr
deriving DecidableEq, Repr

/-- `TempDB.test_connection(psql, retry, tincr)`, the
`for i in range(retry)` loop started at attempt index `i` with `n`
iterations remaining.  `probe i` is the outcome of
`self.run_cmd(cmd, level=2)` at attempt `i`.  Each iteration sleeps the
fixed interval, then probes; the loop breaks at the first exit-zero
probe and the `for`-`else` clause raises `PGSetupError` when the budget
is exhausted without success. -/
def test_connection_go {τ : Type} (probe : Nat → Except PyErr Bool) (tincr : τ) :
    Nat → Nat → List (PEvent τ) × Except PyErr Bool
  | _, 0 => ([], .error (.pgSetupError "Couldn\x27t start PG server"))
  | i, n + 1 =>
      match probe i with
      | .error e => ([PEvent.sleep tincr, PEvent.probeErr], .error e)
      | .ok true => ([PEvent.sleep tincr, PEvent.probe true], .ok true)
      | .ok false =>
          let r := test_connection_go probe tincr (i + 1) n
          (PEvent.sleep tincr :: PEvent.probe false :: r.1, r.2)

/-- `TempDB.test_connection(psql, retry, tincr)`: run the probe loop
from the first attempt. -/
def test_connection {τ : Type} (probe : Nat → Except PyErr Bool) (tincr : τ)
    (retry : Nat) : List (PEvent τ) × Except PyErr Bool :=
  test_connection_go probe tincr 0 retry

/-- Number of completed probe attempts in an event trace. -/
def probeCount {τ : Type} : List (PEvent τ) → Nat
  | [] => 0
  | PEvent.probe _ :: r => probeCount r + 1
  | _ :: r => probeCount r

/-- Number of sleeps in an event trace. -/
def sleepCount {τ : Type} : List (PEvent τ) → Nat
  | [] => 0
  | PEvent.sleep _ :: r => sleepCount r + 1
  | _ :: r => sleepCount r

/-- Outcomes of the probing calls performed before any resource is
allocated: `shutil.which`, `os.geteuid`, `pwd` lookups.  The
constructor prologue (`__init__` up to the `_setup` call) depends only
on this environment. -/
structure ProbeEnv where
  /-- `shutil.which(DEFAULT_POSTGRES)` finds a postgres executable. -/
  which_postgres : Bool
  /-- `shutil.which(DEFAULT_DOCKER_EXE)` finds a docker executable. -/
  which_docker : Bool
  /-- `os.geteuid()`. -/
  euid : Nat
  /-- `pwd.getpwnam('postgres')` succeeds. -/
  pw_postgres_exists : Bool
  /-- `pwd.getpwuid(os.geteuid()).pw_name`. -/
  current_user_name : String
deriving DecidableEq, Repr

/-- Outcomes of the filesystem and subprocess calls performed by the
setup stages.  Every oracle returns `Except PyErr` because the
corresponding Python library call can raise. -/
structure FsEnv where
  /-- `tempfile.mkdtemp(prefix='pg_tmp_')`. -/
  mkdtemp : Except PyErr String
  /-- `os.mkdir(path)`. -/
  mkdir : String → Except PyErr Unit
  /-- `os.chmod(path, 0o777)`. -/
  chmod777 : String → Except PyErr Unit
  /-- `tempfile.mkstemp()` (the cid marker file path). -/
  mkstemp : Except PyErr String
  /-- `open(cidfile).read()`. -/
  read_cidfile : String → Except PyErr String
  /-- `run_cmd(cmd)` foreground: spawn the argv, wait, compare the exit
  code with zero.  `.error` models `subprocess.Popen` raising. -/
  runFg : List String → Except PyErr Bool
  /-- `run_cmd(cmd, bg=True)`: spawn the argv, return the process
  handle. -/
  runBg : List String → Except PyErr Nat
  /-- `run_cmd` on the readiness-probe argv at attempt index `i`
  (the same argv is spawned once per loop iteration of
  `test_connection`; its outcome may differ per attempt while the
  server is starting). -/
  probe : List String → Nat → Except PyErr Bool

/-- Constructor keyword arguments of `TempDB` (defaults as in the
source; `verbosity` and `tincr` only affect printing and the sleep
amount and are omitted from the state model). -/
structure Config where
  databases : Option (List String) := none
  retry : Nat := 5
  docker_img : Option String := none
  initdb : String := "initdb"
  postgres : String := DEFAULT_POSTGRES
  psql : String := "psql"
  createuser : String := "createuser"
  dirname : Option String := none
  sock_dir : Option String := none
  options : List (String × String) := []

/-- Result of one setup stage: the instance state after the stage (also
at the point of failure) and the exception it raised, if any. -/
abbrev StageR := TDState × Option PyErr

/-- Sequencing of setup stages inside the `try` block of `_setup`: a
raised exception skips the remaining stages. -/
def andThen (r : StageR) (f : TDState → StageR) : StageR :=
  match r with
  | (s, some e) => (s, some e)
  | (s, none) => f s

/-- The default-socket branch of `_setup_directories`: assign and create
`<base>/socket`, then make it world-writable. -/
def setup_directories_sock (fe : FsEnv) (base : String) (s : TDState) : StageR :=
  let s := { s with pg_socket_dir := some (base ++ "/socket") }
  match fe.mkdir (base ++ "/socket") with
  | .error e => (s, some e)
  | .ok _ =>
      match fe.chmod777 (base ++ "/socket") with
      | .error e => (s, some e)
      | .ok _ => (s, none)

/-- Tail of `TempDB._setup_directories` after the base directory is
known: assign and create the data directory, then `if not sock_dir:` —
falsy when the argument is `None` or the empty string — create the
default socket directory world-writable, else record the caller-supplied
socket path as is. -/
def setup_directories_rest (fe : FsEnv) (base : String) (sock_dir : Option String)
    (s : TDState) : StageR :=
  let s := { s with pg_data_dir := some (base ++ "/data") }
  match fe.mkdir (base ++ "/data") with
  | .error e => (s, some e)
  | .ok _ =>
      match sock_dir with
      | some sd =>
          if sd = "" then setup_directories_sock fe base s
          else ({ s with pg_socket_dir := some sd }, none)
      | none => setup_directories_sock fe base s

/-- The allocation branch of `_setup_directories` (taken when
`if not dirname:` holds): allocate a fresh temporary base directory,
record it as controller-owned and continue under it. -/
def setup_directories_alloc (fe : FsEnv) (sock_dir : Option String)
    (s : TDState) : StageR :=
  match fe.mkdtemp with
  | .error e => (s, some e)
  | .ok t =>
      setup_directories_rest fe t sock_dir { s with pg_temp_dir := some (some t) }

/-- `TempDB._setup_directories(dirname, sock_dir)`: `self.pg_temp_dir =
None` is the first statement; `if not dirname:` — falsy when the
argument is `None` or the empty string — a fresh temporary base
directory is allocated (and recorded as controller-owned); a truthy
caller-supplied path is used as the base and never recorded. -/
def setup_directories (fe : FsEnv) (dirname sock_dir : Option String)
    (s : TDState) : StageR :=
  let s := { s with pg_temp_dir := some none }
  match dirname with
  | some d =>
      if d = "" then setup_directories_alloc fe sock_dir s
      else setup_directories_rest fe d sock_dir s
  | none => setup_directories_alloc fe sock_dir s

/-- The `-c key=value` flag pairs appended to the server command:
`flatten(zip(itertools.repeat('-c'), options))` over the
`'%s=%s' % (k, v)` strings. -/
def optionFlags (options : List (String × String)) : List String :=
  (options.map (fun kv => ["-c", kv.1 ++ "=" ++ kv.2])).flatten

/-- `TempDB.create_db_server(initdb, postgres, options)`.  Direct mode
(no docker prefix): run `initdb` (non-zero exit is a fatal
`PGSetupError`), then launch the server in the background and store the
process handle.  Docker mode: skip `initdb`, create and unlink a cid
marker file, run the container attached (`bg=False`, so `pg_process`
receives the boolean exit status), then read the container id from the
marker file.  The attribute reads the stage performs are collected in
the outer match; the constructor has assigned all of them before this
stage runs. -/
def create_db_server (fe : FsEnv) (initdb postgres : String)
    (options : List (String × String)) (s : TDState) : StageR :=
  match s.docker_prefix_cmd, s.run_as, s.pg_data_dir, s.pg_socket_dir, s.docker_img with
  | some dpc, some ra, some dataDir, some sockDir, some dimg =>
      if pyTruthyL dpc then
        match fe.mkstemp with
        | .error e => (s, some e)
        | .ok cidfile =>
            match dimg with
            | none => (s, some (.typeError "docker_img is None"))
            | some img =>
                let cmd := ["-d", "--cidfile", cidfile, "-v",
                            sockDir ++ ":" ++ DOCKER_INTERNAL_SOCK_DIR, img,
                            postgres, "-F", "-T", "-h", ""] ++ optionFlags options
                match fe.runFg (runCmdArgv dpc ra cmd) with
                | .error e => (s, some e)
                | .ok b =>
                    let s := { s with pg_process := some (PgVal.rc b) }
                    match fe.read_cidfile cidfile with
                    | .error e => (s, some e)
                    | .ok cid => ({ s with docker_container := some (some cid) }, none)
      else
        match fe.runFg (runCmdArgv dpc ra [initdb, dataDir]) with
        | .error e => (s, some e)
        | .ok false =>
            (s, some (.pgSetupError "Couldn\x27t initialize temp PG data dir"))
        | .ok true =>
            let cmd := [postgres, "-F", "-T", "-D", dataDir, "-k", sockDir,
                        "-h", ""] ++ optionFlags options
            match fe.runBg (runCmdArgv dpc ra cmd) with
            | .error e => (s, some e)
            | .ok h => ({ s with pg_process := some (PgVal.proc h) }, none)
  | _, _, _, _, _ => (s, some (.attributeError "create_db_server"))

/-- `if self.docker_img: self._setup_docker_prefix(mode='init')` in
`_setup`. -/
def docker_init_stage (s : TDState) : StageR :=
  match s.docker_img with
  | none => (s, some (.attributeError "docker_img"))
  | some dimg =>
      if pyTruthyS dimg then (setup_docker_prefix_cmd .init [] s, none)
      else (s, none)

/-- The docker block after `create_db_server` in `_setup`: switch the
prefix to `exec` mode against the recorded container and substitute the
container-internal socket path, remembering the host path. -/
def docker_exec_stage (s : TDState) : StageR :=
  match s.docker_img with
  | none => (s, some (.attributeError "docker_img"))
  | some dimg =>
      if pyTruthyS dimg then
        match s.docker_container, s.pg_socket_dir with
        | some (some cid), some sock =>
            let s := setup_docker_prefix_cmd .exec [cid] s
            let s := { s with real_pg_socket_dir := some sock }
            ({ s with pg_socket_dir := some DOCKER_INTERNAL_SOCK_DIR }, none)
        | some none, some _ => (s, some (.typeError "docker_container is None"))
        | _, _ => (s, some (.attributeError "docker_exec_stage"))
      else (s, none)

/-- `if self.docker_img: self.pg_socket_dir = self._real_pg_socket_dir`
at the end of `_setup`. -/
def docker_restore_stage (s : TDState) : StageR :=
  match s.docker_img with
  | none => (s, some (.attributeError "docker_img"))
  | some dimg =>
      if pyTruthyS dimg then
        match s.real_pg_socket_dir with
        | none => (s, some (.attributeError "real_pg_socket_dir"))
        | some r => ({ s with pg_socket_dir := some r }, none)
      else (s, none)

/-- `TempDB.test_connection` as a setup stage: build the probe argv via
`run_cmd` and consult the loop.  The stage assigns no attribute. -/
def test_connection_stage (fe : FsEnv) (psql : String) (retry : Nat)
    (s : TDState) : StageR :=
  match s.docker_prefix_cmd, s.run_as, s.pg_socket_dir with
  | some dpc, some ra, some sockDir =>
      let argv := runCmdArgv dpc ra [psql, "-d", "postgres", "-h", sockDir, "-c", "\\dt"]
      match (test_connection (fe.probe argv) () retry).2 with
      | .error e => (s, some e)
      | .ok _ => (s, none)
  | _, _, _ => (s, some (.attributeError "test_connection_stage"))

/-- `TempDB.create_user(createuser)` as a setup stage: a non-zero exit
is tolerated (the role may already exist); only a raised exception
propagates. -/
def create_user_stage (fe : FsEnv) (createuser : String) (s : TDState) : StageR :=
  match s.docker_prefix_cmd, s.run_as, s.pg_socket_dir, s.current_user with
  | some dpc, some ra, some sockDir, some cu =>
      match fe.runFg (runCmdArgv dpc ra [createuser, "-h", sockDir, cu, "-s"]) with
      | .error e => (s, some e)
      | .ok _ => (s, none)
  | _, _, _, _ => (s, some (.attributeError "create_user_stage"))

/-- `TempDB.create_databases(psql, databases)` as a setup stage. -/
def create_databases_stage (fe : FsEnv) (psql : String) (dbs : List String)
    (s : TDState) : StageR :=
  match s.docker_prefix_cmd, s.run_as, s.pg_socket_dir with
  | some dpc, some ra, some sockDir =>
      match (create_databases
          (fun db => fe.runFg (runCmdArgv dpc ra
            [psql, "-d", "postgres", "-h", sockDir, "-c",
             "create database " ++ db ++ ";"])) dbs).2 with
      | .error e => (s, some e)
      | .ok _ => (s, none)
  | _, _, _ => (s, some (.attributeError "create_databases_stage"))

/-- The body of the `try` block of `TempDB._setup`: the five setup
stages in source order (the progress `printf` calls and the scoped
privilege drop around `_setup_directories`, which restores the original
identity on every exit path, do not change the modelled state). -/
def setup_body (fe : FsEnv) (cfg : Config) (s : TDState) : StageR :=
  andThen (setup_directories fe cfg.dirname cfg.sock_dir s) (fun s =>
  andThen (docker_init_stage s) (fun s =>
  andThen (create_db_server fe cfg.initdb cfg.postgres cfg.options s) (fun s =>
  andThen (docker_exec_stage s) (fun s =>
  andThen (test_connection_stage fe cfg.psql cfg.retry s) (fun s =>
  andThen (create_user_stage fe cfg.createuser s) (fun s =>
  andThen (create_databases_stage fe cfg.psql (cfg.databases.getD []) s)
    docker_restore_stage))))))

/-- The prologue of `TempDB.__init__` before `_setup` is entered:
default the docker bookkeeping attributes, run the docker-fallback
probe, default `pg_process`, resolve the run-as account and the current
user name.  Returns the prologue state and whether the fallback probe
warned.  No filesystem or subprocess oracle is consulted: nothing is
allocated here. -/
def init_pre (pe : ProbeEnv) (cfg : Config) : Except PyErr (TDState × Bool) :=
  let s : TDState := {}
  let s := { s with
    docker_prefix_cmd := some none
    docker_container := some none
    docker_img := some cfg.docker_img }
  match get_docker_fallback pe.which_postgres pe.which_docker cfg.docker_img
      cfg.postgres with
  | .error e => .error e
  | .ok fr =>
      let s := { s with docker_img := some fr.docker_img, pg_process := some .pnone }
      match get_run_as_account pe.euid pe.pw_postgres_exists with
      | .error e => .error e
      | .ok ra =>
          .ok ({ s with run_as := some ra, current_user := some pe.current_user_name },
               fr.warned)

/-- `TempDB.__init__`: prologue, then `_setup`, whose `except Exception`
handler invokes `cleanup()` and re-raises.  Returns the cleanup actions
performed on the failure path together with the result (the constructed
state, or the exception the caller observes).  If `cleanup` itself
raised, that exception would replace the original one. -/
def TempDB_init (pe : ProbeEnv) (fe : FsEnv) (cfg : Config) :
    List CleanupAct × Except PyErr TDState :=
  match init_pre pe cfg with
  | .error e => ([], .error e)
  | .ok (s0, _) =>
      match setup_body fe cfg s0 with
      | (s1, none) => ([], .ok s1)
      | (s1, some e) =>
          match (cleanup s1).1 with
          | .ok acts => (acts, .error e)
          | .error ce => ([], .error ce)

/-- The module-level state of `pg_temp`: the `temp_db` singleton slot
and how many times `atexit.register(cleanup)` has run. -/
structure ModuleState where
  temp_db : Option Nat
  hooks : Nat
deriving DecidableEq, Repr

/-- `pg_temp.init_temp_db(*args, **kwargs)`: when the slot is empty
(`if not temp_db:` — an instance is always truthy), construct an
instance with the given arguments and register the exit hook; otherwise
return the existing instance.  `construct` abstracts `TempDB(*args,
**kwargs)`, producing a fresh instance identity or raising; a raised
exception leaves the slot empty and registers no hook. -/
def init_temp_db {α : Type} (construct : α → Except PyErr Nat)
    (st : ModuleState) (a : α) : ModuleState × Except PyErr Nat :=
  match st.temp_db with
  | some i => (st, .ok i)
  | none =>
      match construct a with
      | .ok i => ({ temp_db := some i, hooks := st.hooks + 1 }, .ok i)
      | .error e => (st, .error e)

/-- Fold a sequence of `init_temp_db` calls over the module state. -/
def run_init_calls {α : Type} (construct : α → Except PyErr Nat)
    (st : ModuleState) : List α → ModuleState
  | [] => st
  | a :: rest => run_init_calls construct (init_temp_db construct st a).1 rest

/-- An event trace consisting of blocks `sleep t, probe _`: every probe
attempt, including the first, is immediately preceded by a sleep of the
fixed interval `t`. -/
inductive ProbeShaped {τ : Type} (t : τ) : List (PEvent τ) → Prop
  | nil : ProbeShaped t []
  | cons (b : Bool) (r : List (PEvent τ)) :
      ProbeShaped t r → ProbeShaped t (PEvent.sleep t :: PEvent.probe b :: r)

/-- Both attributes read by the kill half of `cleanup` are assigned. -/
def killFieldsSet (s : TDState) : Bool :=
  s.docker_container.isSome && s.pg_process.isSome

/-- All three attributes read by `cleanup` are assigned. -/
def cleanupFieldsSet (s : TDState) : Bool :=
  killFieldsSet s && s.pg_temp_dir.isSome

/-- Concrete probing environment: a postgres installation on the path,
an ordinary (non-root) caller. -/
def peW : ProbeEnv :=
  { which_postgres := true
    which_docker := false
    euid := 1000
    pw_postgres_exists := false
    current_user_name := "tester" }

/-- Concrete probing environment: neither a postgres installation nor a
docker executable on the path. -/
def peNoPath : ProbeEnv :=
  { peW with which_postgres := false, which_docker := false }

/-- Concrete probing environment: no postgres installation, but docker
present. -/
def peDockerOnly : ProbeEnv :=
  { peW with which_postgres := false, which_docker := true }

/-- Concrete filesystem environment in which every external command
reports failure (exit status non-zero), so `initdb` fails. -/
def feW : FsEnv :=
  { mkdtemp := .ok "/tmp/pg_tmp_x"
    mkdir := fun _ => .ok ()
    chmod777 := fun _ => .ok ()
    mkstemp := .ok "/tmp/cid"
    read_cidfile := fun _ => .ok "cid123"
    runFg := fun _ => .ok false
    runBg := fun _ => .ok 7
    probe := fun _ _ => .ok true }

/-- Concrete filesystem environment in which everything succeeds. -/
def feOk : FsEnv :=
  { feW with runFg := fun _ => .ok true }

/-- Concrete filesystem environment in which `tempfile.mkdtemp`
raises. -/
def feMkdtempFail : FsEnv :=
  { feW with mkdtemp := .error (.osError "mkdtemp") }

/-- The default constructor configuration. -/
def cfg0 : Config := {}

/-- Constructor configuration with a caller-supplied base directory. -/
def cfgDirW : Config := { dirname := some "/home/tester/base" }

/-- The prologue state produced by `init_pre peW cfg0`: the docker
bookkeeping attributes and `pg_process` defaulted, `pg_temp_dir` not
yet assigned. -/
def s0W : TDState :=
  { docker_prefix_cmd := some none
    docker_container := some none
    docker_img := some none
    pg_process := some .pnone
    run_as := some none
    current_user := some "tester"
    pg_temp_dir := none
    pg_data_dir := none
    pg_socket_dir := none
    real_pg_socket_dir := none }


/-! ### Helper lemmas -/

/-- Once `rc` is falsy, the `create_databases` loop issues no further
commands and ends by raising the batch error. -/
theorem create_databases_go_false (run1 : String → Except PyErr Bool)
    (l : List String) :
    create_databases_go run1 l false
      = ([], .error (.pgSetupError "Couldn\x27t create databases")) := by
  induction l with
  | nil => rfl
  | cons d rest ih => simpa [create_databases_go] using ih

/-- `rmtreeActs` never produces a kill action. -/
theorem rmtree_acts_only_rmtree (td : Option String) :
    CleanupAct.procKill ∉ rmtreeActs td ∧ CleanupAct.procWait ∉ rmtreeActs td := by
  cases td with
  | none => simp [rmtreeActs]
  | some d =>
      by_cases hd : d = "" <;> simp [rmtreeActs, hd]

/-! ### C1 — batch database creation -/

/-- C1, counterexample: with `databases=['alpha','beta']` and the
creation of `alpha` failing (exit status non-zero) while `beta` would
succeed, `create_databases` issues a creation command for `alpha` only —
the remaining name is skipped, not attempted — and then raises the batch
`PGSetupError`.  This refutes "issues a creation command for every name
in the list … even after one of the creation commands has failed". -/
theorem create_databases_short_circuit_cex :
    (create_databases (fun d => Except.ok (d == "beta")) ["alpha", "beta"]).1
      = ["alpha"]
  ∧ "beta" ∉ (create_databases (fun d => Except.ok (d == "beta")) ["alpha", "beta"]).1
  ∧ (create_databases (fun d => Except.ok (d == "beta")) ["alpha", "beta"]).2
      = .error (.pgSetupError "Couldn\x27t create databases") := by
  refine ⟨rfl, by decide, rfl⟩

/-- C1, amended: for every list of requested database names,
`create_databases` issues creation commands in caller-supplied order
only up to and including the first name whose creation fails; names
after the first failure are skipped (the `rc and run_cmd(...)`
conjunction short-circuits).  Only after the loop does it raise the
single batch `PGSetupError`, exactly when some issued creation failed. -/
theorem create_databases_amended (exec : String → Bool) (dbs : List String) :
    (create_databases (fun d => Except.ok (exec d)) dbs).1
      = issued_through_first_failure exec dbs
  ∧ (create_databases (fun d => Except.ok (exec d)) dbs).2
      = (if dbs.all exec then Except.ok true
         else Except.error (.pgSetupError "Couldn\x27t create databases")) := by
  induction dbs with
  | nil => exact ⟨rfl, rfl⟩
  | cons d rest ih =>
      cases hd : exec d with
      | true =>
          refine ⟨?_, ?_⟩
          · simpa [create_databases, create_databases_go, hd,
              issued_through_first_failure] using ih.1
          · simpa [create_databases, create_databases_go, hd] using ih.2
      | false =>
          refine ⟨?_, ?_⟩
          · simp [create_databases, create_databases_go, hd,
              issued_through_first_failure, create_databases_go_false]
          · simp [create_databases, create_databases_go, hd,
              create_databases_go_false]

/-! ### C5 — cleanup branch order -/

/-- C5: on any state whose attributes `cleanup` reads are assigned, if a
container identifier was recorded (truthy), cleanup issues a forced
`docker kill` against that identifier with its stdout suppressed and
performs no process kill or wait; otherwise, if the process handle is
truthy, it kills the process and waits for it.  `cleanup` assigns no
attribute, so a repeated invocation behaves identically. -/
theorem cleanup_branch_order (s : TDState) :
    (∀ c td, s.docker_container = some (some c) → c ≠ "" →
        s.pg_temp_dir = some td →
        (cleanup s).1 = .ok (CleanupAct.dockerKill c true :: rmtreeActs td)
      ∧ CleanupAct.procKill ∉ CleanupAct.dockerKill c true :: rmtreeActs td
      ∧ CleanupAct.procWait ∉ CleanupAct.dockerKill c true :: rmtreeActs td)
  ∧ (∀ dc p td, s.docker_container = some dc → pyTruthyS dc = false →
        s.pg_process = some p → p.truthy = true → s.pg_temp_dir = some td →
        (cleanup s).1
          = .ok (CleanupAct.procKill :: CleanupAct.procWait :: rmtreeActs td))
  ∧ (cleanup s).2 = s ∧ cleanup ((cleanup s).2) = cleanup s := by
  refine ⟨?_, ?_, rfl, rfl⟩
  · intro c td hdc hc htd
    refine ⟨?_, ?_, ?_⟩
    · simp [cleanup, cleanup_kill, hdc, htd, hc]
    · simpa using (rmtree_acts_only_rmtree td).1
    · simpa using (rmtree_acts_only_rmtree td).2
  · intro dc p td hdc hfalsy hp htr htd
    cases dc with
    | none =>
        simp [cleanup, cleanup_kill, cleanup_proc, hdc, htd, hp, htr]
    | some c =>
        have hc : c = "" := by
          by_contra hne
          simp [pyTruthyS, hne] at hfalsy
        subst hc
        simp [cleanup, cleanup_kill, cleanup_proc, hdc, htd, hp, htr]

/-- C5, witness: a state with a recorded container identifier, a truthy
process handle and an owned temporary directory takes the docker branch
only. -/
theorem cleanup_branch_order_witness :
    ((cleanup { s0W with
                docker_container := some (some "cid123"),
                pg_process := some (.proc 7),
                pg_temp_dir := some (some "/tmp/pg_tmp_x") }).1
      = .ok (CleanupAct.dockerKill "cid123" true
          :: rmtreeActs (some "/tmp/pg_tmp_x")))
  ∧ ((cleanup { s0W with
                pg_process := some (.proc 7),
                pg_temp_dir := some (some "/tmp/pg_tmp_x") }).1
      = .ok (CleanupAct.procKill :: CleanupAct.procWait
          :: rmtreeActs (some "/tmp/pg_tmp_x"))) :=
  ⟨((cleanup_branch_order _).1 "cid123" (some "/tmp/pg_tmp_x") rfl (by decide)
      rfl).1,
   (cleanup_branch_order _).2.1 none (.proc 7) (some "/tmp/pg_tmp_x") rfl
      (by decide) rfl (by decide) rfl⟩

/-! ### C8 — module singleton accessor -/

/-- C8: once the singleton slot holds an instance, every later
`init_temp_db` call returns that same instance unchanged, for any
arguments, without constructing or registering anything; the first
successful call constructs the instance and registers the exit hook
exactly once; a failed construction leaves the slot empty and registers
no hook. -/
theorem init_temp_db_singleton {α : Type} (construct : α → Except PyErr Nat) :
    (∀ st i a, st.temp_db = some i → init_temp_db construct st a = (st, .ok i))
  ∧ (∀ st a i, st.temp_db = none → construct a = .ok i →
      init_temp_db construct st a
        = ({ temp_db := some i, hooks := st.hooks + 1 }, .ok i))
  ∧ (∀ st a e, st.temp_db = none → construct a = .error e →
      init_temp_db construct st a = (st, .error e))
  ∧ (∀ st i calls, st.temp_db = some i → run_init_calls construct st calls = st) := by
  refine ⟨?_, ?_, ?_, ?_⟩
  · intro st i a h
    simp [init_temp_db, h]
  · intro st a i h hc
    simp [init_temp_db, h, hc]
  · intro st a e h hc
    simp [init_temp_db, h, hc]
  · intro st i calls h
    induction calls with
    | nil => rfl
    | cons a rest ih =>
        simp [run_init_calls, init_temp_db, h, ih]

/-- C8, witness: with the slot holding instance `7`, calls with
arbitrary distinct arguments return instance `7` and leave the state
unchanged; from the empty state, a successful construction fills the
slot and registers one hook. -/
theorem init_temp_db_singleton_witness :
    init_temp_db (fun a : Nat => Except.ok (a + 40)) ⟨some 7, 1⟩ 99
      = (⟨some 7, 1⟩, .ok 7)
  ∧ run_init_calls (fun a : Nat => Except.ok (a + 40)) ⟨some 7, 1⟩ [1, 2, 3]
      = ⟨some 7, 1⟩
  ∧ init_temp_db (fun a : Nat => Except.ok (a + 40)) ⟨none, 0⟩ 2
      = (⟨some 42, 1⟩, .ok 42) :=
  ⟨(init_temp_db_singleton _).1 ⟨some 7, 1⟩ 7 99 rfl,
   (init_temp_db_singleton _).2.2.2 ⟨some 7, 1⟩ 7 [1, 2, 3] rfl,
   (init_temp_db_singleton _).2.1 ⟨none, 0⟩ 2 42 rfl rfl⟩

/-! ### C9 — explicit postgres executable skips the docker fallback -/

/-- C9: whenever the caller overrides the postgres executable with any
value other than the default name, `_get_docker_fallback` returns
without consulting `shutil.which` at all (no existence check), without
warning, without touching `docker_img` (so the probe never selects
container mode) and without raising — independently of whether any
postgres or docker executable exists. -/
theorem custom_exe_skips_fallback (wp wd : Bool) (dimg : Option String)
    (exe : String) (hexe : exe ≠ DEFAULT_POSTGRES) :
    get_docker_fallback wp wd dimg exe = .ok ⟨dimg, false, []⟩ := by
  by_cases himg : pyTruthyS dimg = true
  · simp [get_docker_fallback, himg]
  · simp [get_docker_fallback, himg, hexe]

/-- C9, witness: a nonexistent custom executable path, no postgres and
no docker on the path: the probe is skipped and nothing raised. -/
theorem custom_exe_skips_fallback_witness :
    get_docker_fallback false false none "/opt/pgsql/bin/postgres"
      = .ok ⟨none, false, []⟩ :=
  custom_exe_skips_fallback false false none "/opt/pgsql/bin/postgres" (by decide)

/-! ### C10 — docker prefix precedence in run_cmd -/

/-- C10: when a docker command prefix has been set up (either mode of
`_setup_docker_prefix`), `run_cmd` spawns exactly the prefix followed by
the command — the result is independent of the resolved run-as account
and is never the `su`-based privilege-drop subshell form (its first
element is the docker executable, not `su`). -/
theorem docker_prefix_precedence (mode : DPMode) (args : List String)
    (s : TDState) (ra : Option Unit) (cmd : List String) (p : List String)
    (h : (setup_docker_prefix_cmd mode args s).docker_prefix_cmd = some (some p)) :
    runCmdArgv (some p) ra cmd = p ++ cmd
  ∧ runCmdArgv (some p) ra cmd = runCmdArgv (some p) none cmd
  ∧ (runCmdArgv (some p) ra cmd).head? = some DEFAULT_DOCKER_EXE
  ∧ user_subshell (some ()) cmd
      = "su" :: "-" :: "postgres" :: "-c"
          :: [String.intercalate " " (cmd.map shlex_quote)]
  ∧ (runCmdArgv (some p) ra cmd).head? ≠ some "su" := by
  have hp : p = DEFAULT_DOCKER_EXE :: p.tail := by
    cases mode with
    | init =>
        simp [setup_docker_prefix_cmd] at h
        simp [← h, DEFAULT_DOCKER_EXE]
    | exec =>
        simp [setup_docker_prefix_cmd] at h
        simp [← h, DEFAULT_DOCKER_EXE]
  rw [hp]
  refine ⟨rfl, rfl, rfl, rfl, by simp [runCmdArgv, DEFAULT_DOCKER_EXE]⟩

/-- C10, witness: the `init`-mode prefix with a resolved run-as account
(root caller): the spawned argv is the prefix plus the command, not an
`su` subshell. -/
theorem docker_prefix_precedence_witness :
    runCmdArgv (some [DEFAULT_DOCKER_EXE, "run", "--rm", "-e",
        "POSTGRES_HOST_AUTH_METHOD=trust", "--user=postgres"]) (some ()) ["initdb"]
      = [DEFAULT_DOCKER_EXE, "run", "--rm", "-e",
         "POSTGRES_HOST_AUTH_METHOD=trust", "--user=postgres"] ++ ["initdb"]
  ∧ (runCmdArgv (some [DEFAULT_DOCKER_EXE, "run", "--rm", "-e",
        "POSTGRES_HOST_AUTH_METHOD=trust", "--user=postgres"]) (some ())
        ["initdb"]).head? ≠ some "su" :=
  ⟨(docker_prefix_precedence .init [] {} (some ()) ["initdb"] _ rfl).1,
   (docker_prefix_precedence .init [] {} (some ()) ["initdb"] _ rfl).2.2.2.2⟩

/-! ### C3 — readiness probe budget -/

/-- With non-raising probes, every attempt of the probe loop is a
`sleep`-then-`probe` block at the fixed interval. -/
theorem test_connection_go_shaped {τ : Type} (b : Nat → Bool) (t : τ)
    (i n : Nat) :
    ProbeShaped t (test_connection_go (fun j => Except.ok (b j)) t i n).1 := by
  induction n generalizing i with
  | zero => exact .nil
  | succ n ih =>
      cases hbi : b i with
      | true =>
          simp [test_connection_go, hbi]
          exact .cons true [] .nil
      | false =>
          simp [test_connection_go, hbi]
          exact .cons false _ (ih (i + 1))

/-- A never-ready server exhausts the budget: exactly `n` attempts, then
the `PGSetupError`. -/
theorem test_connection_go_never_ready {τ : Type} (b : Nat → Bool) (t : τ)
    (hb : ∀ j, b j = false) (i n : Nat) :
    probeCount (test_connection_go (fun j => Except.ok (b j)) t i n).1 = n
  ∧ (test_connection_go (fun j => Except.ok (b j)) t i n).2
      = .error (.pgSetupError "Couldn\x27t start PG server") := by
  induction n generalizing i with
  | zero => exact ⟨rfl, rfl⟩
  | succ n ih =>
      have := ih (i + 1)
      simp [test_connection_go, hb i, probeCount, sleepCount]
      exact ⟨this.1, this.2⟩

/-- The loop stops at the first attempt whose exit code is zero. -/
theorem test_connection_go_first_success {τ : Type} (b : Nat → Bool) (t : τ) :
    ∀ n i k, i ≤ k → k < i + n → b k = true →
      (∀ j, i ≤ j → j < k → b j = false) →
      probeCount (test_connection_go (fun j => Except.ok (b j)) t i n).1
        = k + 1 - i
    ∧ (test_connection_go (fun j => Except.ok (b j)) t i n).2 = .ok true := by
  intro n
  induction n with
  | zero => intro i k h1 h2; omega
  | succ n ih =>
      intro i k h1 h2 hk hmin
      cases hbi : b i with
      | true =>
          have hik : i = k := by
            by_contra hne
            have : b i = false := hmin i le_rfl (by omega)
            rw [this] at hbi
            exact Bool.false_ne_true hbi
          subst hik
          simp [test_connection_go, hbi, probeCount, sleepCount]
      | false =>
          have hik : i < k := by
            rcases Nat.lt_or_ge i k with h | h
            · exact h
            · have : i = k := by omega
              subst this
              rw [hk] at hbi
              exact absurd hbi (by simp)
          have := ih (i + 1) k (by omega) (by omega) hk
            (fun j hj1 hj2 => hmin j (by omega) hj2)
          simp [test_connection_go, hbi, probeCount, sleepCount]
          refine ⟨by omega, this.2⟩

/-- C3: for every retry budget `N ≥ 0` and interval, the prober sleeps
the fixed interval before every probe attempt (including the first);
when no attempt returns exit code zero it makes exactly `N` attempts and
then raises `PGSetupError`; and it stops — returning success — at the
first attempt whose exit code is zero. -/
theorem test_connection_budget {τ : Type} (t : τ) (b : Nat → Bool) (N : Nat) :
    ProbeShaped t (test_connection (fun i => Except.ok (b i)) t N).1
  ∧ ((∀ i, b i = false) →
      probeCount (test_connection (fun i => Except.ok (b i)) t N).1 = N
    ∧ (test_connection (fun i => Except.ok (b i)) t N).2
        = .error (.pgSetupError "Couldn\x27t start PG server"))
  ∧ (∀ k, k < N → b k = true → (∀ j, j < k → b j = false) →
      probeCount (test_connection (fun i => Except.ok (b i)) t N).1 = k + 1
    ∧ (test_connection (fun i => Except.ok (b i)) t N).2 = .ok true) := by
  refine ⟨test_connection_go_shaped b t 0 N, ?_, ?_⟩
  · intro hb
    exact test_connection_go_never_ready b t hb 0 N
  · intro k hk hbk hmin
    have := test_connection_go_first_success b t N 0 k (Nat.zero_le k)
      (by omega) hbk (fun j _ hj => hmin j hj)
    simpa using this

/-- C3, witness: a never-ready server with `retry=3` yields exactly 3
attempts then the error; a server ready at the second attempt stops
after 2 attempts. -/
theorem test_connection_budget_witness :
    (probeCount (test_connection
        (fun i => Except.ok ((fun _ => false) i)) (1 : Nat) 3).1 = 3
    ∧ (test_connection (fun i => Except.ok ((fun _ => false) i)) (1 : Nat) 3).2
        = .error (.pgSetupError "Couldn\x27t start PG server"))
  ∧ (probeCount (test_connection
        (fun i => Except.ok ((fun j => j == 1) i)) (1 : Nat) 5).1 = 2
    ∧ (test_connection (fun i => Except.ok ((fun j => j == 1) i)) (1 : Nat) 5).2
        = .ok true) :=
  ⟨(test_connection_budget 1 (fun _ => false) 3).2.1 (fun _ => rfl),
   (test_connection_budget 1 (fun j => j == 1) 5).2.2 1 (by decide) (by decide)
     (by decide)⟩

/-! ### C6 — no local install: docker fallback or immediate failure -/

/-- C6: with no container image requested, the default executable name,
and no local postgres installation found on the path: if a docker
executable is present, the probe warns and selects container mode with
the fallback image name (visible in the constructed prologue state);
if docker is absent as well, construction fails immediately with the
`PGSetupError` — for every filesystem/subprocess environment, i.e.
before any resource is allocated and with no cleanup action emitted. -/
theorem docker_fallback_decision (pe : ProbeEnv) (cfg : Config)
    (himg : cfg.docker_img = none) (hexe : cfg.postgres = DEFAULT_POSTGRES)
    (hwp : pe.which_postgres = false) :
    (pe.which_docker = true →
        get_docker_fallback pe.which_postgres pe.which_docker cfg.docker_img
            cfg.postgres
          = .ok ⟨some FALLBACK_DOCKER_IMG, true,
              [DEFAULT_POSTGRES, DEFAULT_DOCKER_EXE]⟩
      ∧ (∀ s w, init_pre pe cfg = .ok (s, w) →
          w = true ∧ s.docker_img = some (some FALLBACK_DOCKER_IMG)))
  ∧ (pe.which_docker = false →
        get_docker_fallback pe.which_postgres pe.which_docker cfg.docker_img
            cfg.postgres
          = .error (.pgSetupError "Unable to locate a postgres installation")
      ∧ ∀ fe, TempDB_init pe fe cfg
          = ([], .error (.pgSetupError "Unable to locate a postgres installation"))) := by
  constructor
  · intro hwd
    have hgdf : get_docker_fallback pe.which_postgres pe.which_docker
        cfg.docker_img cfg.postgres
        = .ok ⟨some FALLBACK_DOCKER_IMG, true,
            [DEFAULT_POSTGRES, DEFAULT_DOCKER_EXE]⟩ := by
      rw [hwp, hwd, himg, hexe]
      decide
    refine ⟨hgdf, ?_⟩
    intro s w h
    simp only [init_pre, hgdf] at h
    cases hra : get_run_as_account pe.euid pe.pw_postgres_exists with
    | error e => rw [hra] at h; simp at h
    | ok ra =>
        rw [hra] at h
        simp only [Except.ok.injEq, Prod.mk.injEq] at h
        obtain ⟨hs, hw⟩ := h
        subst hs
        exact ⟨hw.symm, rfl⟩
  · intro hwd
    have hgdf : get_docker_fallback pe.which_postgres pe.which_docker
        cfg.docker_img cfg.postgres
        = .error (.pgSetupError "Unable to locate a postgres installation") := by
      rw [hwp, hwd, himg, hexe]
      decide
    refine ⟨hgdf, ?_⟩
    intro fe
    have hpre : init_pre pe cfg
        = .error (.pgSetupError "Unable to locate a postgres installation") := by
      simp only [init_pre, hgdf]
    simp [TempDB_init, hpre]

/-- C6, witness: both branches at concrete environments — docker present
(warn, fallback image selected) and docker absent (immediate error for a
concrete filesystem environment, no cleanup actions). -/
theorem docker_fallback_decision_witness :
    (get_docker_fallback peDockerOnly.which_postgres peDockerOnly.which_docker
        cfg0.docker_img cfg0.postgres
      = .ok ⟨some FALLBACK_DOCKER_IMG, true,
          [DEFAULT_POSTGRES, DEFAULT_DOCKER_EXE]⟩)
  ∧ TempDB_init peNoPath feOk cfg0
      = ([], .error (.pgSetupError "Unable to locate a postgres installation")) :=
  ⟨((docker_fallback_decision peDockerOnly cfg0 rfl rfl rfl).1 rfl).1,
   ((docker_fallback_decision peNoPath cfg0 rfl rfl rfl).2 rfl).2 feOk⟩

/-! ### Stage lemmas for the setup pipeline -/

/-- A failed stage short-circuits the rest of the pipeline. -/
theorem andThen_err {r : StageR} {f : TDState → StageR} {e : PyErr}
    (h : r.2 = some e) : andThen r f = r := by
  rcases r with ⟨s, o⟩
  simp only at h
  subst h
  rfl

/-- A successful stage passes its state to the rest of the pipeline. -/
theorem andThen_ok {r : StageR} {f : TDState → StageR} (h : r.2 = none) :
    andThen r f = f r.1 := by
  rcases r with ⟨s, o⟩
  simp only at h
  subst h
  rfl

/-- State invariants propagate through stage sequencing. -/
theorem andThen_pres (P : TDState → Prop) {r : StageR} {f : TDState → StageR}
    (hr : P r.1) (hf : ∀ s, P s → P (f s).1) : P (andThen r f).1 := by
  rcases r with ⟨s, o⟩
  cases o with
  | none => exact hf s hr
  | some e => exact hr

/-- The default-socket branch assigns only the socket directory
attribute. -/
theorem setup_directories_sock_fields (fe : FsEnv) (base : String)
    (s : TDState) :
    ((setup_directories_sock fe base s).1).docker_container = s.docker_container
  ∧ ((setup_directories_sock fe base s).1).pg_process = s.pg_process
  ∧ ((setup_directories_sock fe base s).1).pg_temp_dir = s.pg_temp_dir := by
  unfold setup_directories_sock
  dsimp only
  repeat' split
  all_goals exact ⟨rfl, rfl, rfl⟩

/-- `_setup_directories` (tail) assigns only the data and socket
directory attributes. -/
theorem setup_directories_rest_fields (fe : FsEnv) (base : String)
    (sd : Option String) (s : TDState) :
    ((setup_directories_rest fe base sd s).1).docker_container = s.docker_container
  ∧ ((setup_directories_rest fe base sd s).1).pg_process = s.pg_process
  ∧ ((setup_directories_rest fe base sd s).1).pg_temp_dir = s.pg_temp_dir := by
  unfold setup_directories_rest
  dsimp only
  repeat' split
  all_goals first
    | exact ⟨rfl, rfl, rfl⟩
    | exact ⟨(setup_directories_sock_fields _ _ _).1,
        (setup_directories_sock_fields _ _ _).2.1,
        (setup_directories_sock_fields _ _ _).2.2⟩

/-- The allocation branch preserves the kill-branch attributes and keeps
`pg_temp_dir` assigned. -/
theorem setup_directories_alloc_cfields (fe : FsEnv) (sd : Option String)
    (s : TDState) (h : killFieldsSet s = true)
    (htd : s.pg_temp_dir.isSome = true) :
    cleanupFieldsSet (setup_directories_alloc fe sd s).1 = true := by
  unfold setup_directories_alloc
  cases hmk : fe.mkdtemp with
  | error e => simp [cleanupFieldsSet, h, htd]
  | ok t =>
      have hr := setup_directories_rest_fields fe t sd
        { s with pg_temp_dir := some (some t) }
      simp [cleanupFieldsSet, killFieldsSet, hr.1, hr.2.1, hr.2.2]
      simp [killFieldsSet] at h
      simp [h]

/-- `_setup_directories` preserves the kill-branch attributes and always
assigns `pg_temp_dir` (its first statement), so afterwards all three
attributes that `cleanup` reads are set. -/
theorem setup_directories_cfields (fe : FsEnv) (dn sd : Option String)
    (s : TDState) (h : killFieldsSet s = true) :
    cleanupFieldsSet (setup_directories fe dn sd s).1 = true := by
  unfold setup_directories
  dsimp only
  have h0 : killFieldsSet { s with pg_temp_dir := some none } = true := by
    simpa [killFieldsSet] using h
  cases dn with
  | none => exact setup_directories_alloc_cfields fe sd _ h0 rfl
  | some d =>
      dsimp only
      by_cases hd : d = ""
      · rw [if_pos hd]
        exact setup_directories_alloc_cfields fe sd _ h0 rfl
      · rw [if_neg hd]
        have hr := setup_directories_rest_fields fe d sd
          { s with pg_temp_dir := some none }
        simp [cleanupFieldsSet, killFieldsSet, hr.1, hr.2.1, hr.2.2]
        simp [killFieldsSet] at h
        simp [h]

/-- When the caller supplies a truthy (non-empty) base directory,
`_setup_directories` records no owned temporary directory
(`pg_temp_dir` is `None`). -/
theorem setup_directories_temp_dir_truthy (fe : FsEnv) (d : String)
    (sd : Option String) (s : TDState) (hd : d ≠ "") :
    (setup_directories fe (some d) sd s).1.pg_temp_dir = some none := by
  unfold setup_directories
  dsimp only
  rw [if_neg hd]
  have hr := setup_directories_rest_fields fe d sd { s with pg_temp_dir := some none }
  simp [hr.2.2]

/-- The allocation branch records the `mkdtemp` result as the owned
temporary directory. -/
theorem setup_directories_alloc_temp_dir (fe : FsEnv) (sd : Option String)
    (s : TDState) (t : String) (hmk : fe.mkdtemp = .ok t) :
    (setup_directories_alloc fe sd s).1.pg_temp_dir = some (some t) := by
  unfold setup_directories_alloc
  simp only [hmk]
  have hr := setup_directories_rest_fields fe t sd
    { s with pg_temp_dir := some (some t) }
  simp [hr.2.2]

/-- When the base-directory argument is falsy (`None` or `""`) and
`mkdtemp` returns `t`, `_setup_directories` records `t` as the owned
temporary directory. -/
theorem setup_directories_temp_dir_falsy (fe : FsEnv) (dn sd : Option String)
    (s : TDState) (t : String) (hdn : pyTruthyS dn = false)
    (hmk : fe.mkdtemp = .ok t) :
    (setup_directories fe dn sd s).1.pg_temp_dir = some (some t) := by
  unfold setup_directories
  dsimp only
  cases dn with
  | none => exact setup_directories_alloc_temp_dir fe sd _ t hmk
  | some d =>
      dsimp only
      have hd : d = "" := by simpa [pyTruthyS] using hdn
      rw [if_pos hd]
      exact setup_directories_alloc_temp_dir fe sd _ t hmk

/-- The docker-prefix-`init` stage leaves the attributes `cleanup` reads
unchanged. -/
theorem docker_init_stage_fields (s : TDState) :
    ((docker_init_stage s).1).docker_container = s.docker_container
  ∧ ((docker_init_stage s).1).pg_process = s.pg_process
  ∧ ((docker_init_stage s).1).pg_temp_dir = s.pg_temp_dir := by
  unfold docker_init_stage setup_docker_prefix_cmd
  repeat' split
  all_goals exact ⟨rfl, rfl, rfl⟩

/-- `create_db_server` leaves `pg_temp_dir` unchanged and keeps the
kill-branch attributes assigned (it only overwrites them with assigned
values). -/
theorem create_db_server_fields (fe : FsEnv) (i p : String)
    (o : List (String × String)) (s : TDState) :
    ((create_db_server fe i p o s).1).pg_temp_dir = s.pg_temp_dir
  ∧ (killFieldsSet s = true →
      killFieldsSet (create_db_server fe i p o s).1 = true) := by
  unfold create_db_server
  dsimp only
  repeat' split
  all_goals refine ⟨rfl, fun h => ?_⟩
  all_goals simp_all [killFieldsSet]

/-- The docker-prefix-`exec` stage leaves the attributes `cleanup` reads
unchanged. -/
theorem docker_exec_stage_fields (s : TDState) :
    ((docker_exec_stage s).1).docker_container = s.docker_container
  ∧ ((docker_exec_stage s).1).pg_process = s.pg_process
  ∧ ((docker_exec_stage s).1).pg_temp_dir = s.pg_temp_dir := by
  unfold docker_exec_stage setup_docker_prefix_cmd
  dsimp only
  repeat' split
  all_goals exact ⟨rfl, rfl, rfl⟩

/-- The readiness-probe stage assigns no attribute. -/
theorem test_connection_stage_state (fe : FsEnv) (psql : String) (retry : Nat)
    (s : TDState) : (test_connection_stage fe psql retry s).1 = s := by
  unfold test_connection_stage
  dsimp only
  repeat' split
  all_goals rfl

/-- The user-provisioning stage assigns no attribute. -/
theorem create_user_stage_state (fe : FsEnv) (cu : String) (s : TDState) :
    (create_user_stage fe cu s).1 = s := by
  unfold create_user_stage
  repeat' split
  all_goals rfl

/-- The database-provisioning stage assigns no attribute. -/
theorem create_databases_stage_state (fe : FsEnv) (psql : String)
    (dbs : List String) (s : TDState) :
    (create_databases_stage fe psql dbs s).1 = s := by
  unfold create_databases_stage
  repeat' split
  all_goals rfl

/-- The socket-path-restore stage leaves the attributes `cleanup` reads
unchanged. -/
theorem docker_restore_stage_fields (s : TDState) :
    ((docker_restore_stage s).1).docker_container = s.docker_container
  ∧ ((docker_restore_stage s).1).pg_process = s.pg_process
  ∧ ((docker_restore_stage s).1).pg_temp_dir = s.pg_temp_dir := by
  unfold docker_restore_stage
  repeat' split
  all_goals exact ⟨rfl, rfl, rfl⟩

/-- Transport of the cleanup-attribute invariant along a stage that
leaves the three attributes `cleanup` reads unchanged. -/
theorem cfields_congr {s s' : TDState}
    (hf : s'.docker_container = s.docker_container
        ∧ s'.pg_process = s.pg_process ∧ s'.pg_temp_dir = s.pg_temp_dir)
    (h : cleanupFieldsSet s = true) : cleanupFieldsSet s' = true := by
  simp only [cleanupFieldsSet, killFieldsSet, hf.1, hf.2.1, hf.2.2]
  exact h

/-- `create_db_server` preserves the cleanup-attribute invariant. -/
theorem create_db_server_cfields (fe : FsEnv) (i p : String)
    (o : List (String × String)) (s : TDState)
    (h : cleanupFieldsSet s = true) :
    cleanupFieldsSet (create_db_server fe i p o s).1 = true := by
  have hf := create_db_server_fields fe i p o s
  simp only [cleanupFieldsSet, Bool.and_eq_true] at h ⊢
  refine ⟨hf.2 h.1, ?_⟩
  rw [hf.1]
  exact h.2

/-- After the prologue of `__init__`, the two kill-branch attributes are
assigned. -/
theorem init_pre_kill_fields {pe : ProbeEnv} {cfg : Config} {s0 : TDState}
    {w : Bool} (h : init_pre pe cfg = .ok (s0, w)) :
    killFieldsSet s0 = true := by
  unfold init_pre at h
  cases hf : get_docker_fallback pe.which_postgres pe.which_docker
      cfg.docker_img cfg.postgres with
  | error e => rw [hf] at h; cases h
  | ok fr =>
      rw [hf] at h
      cases hra : get_run_as_account pe.euid pe.pw_postgres_exists with
      | error e => rw [hra] at h; cases h
      | ok ra =>
          rw [hra] at h
          simp only [Except.ok.injEq, Prod.mk.injEq] at h
          obtain ⟨h1, _⟩ := h
          subst h1
          rfl

/-- If all three attributes `cleanup` reads are assigned, `cleanup` does
not raise. -/
theorem cleanup_ok_of_fields {s : TDState} (h : cleanupFieldsSet s = true) :
    isOkE (cleanup s).1 = true := by
  simp only [cleanupFieldsSet, killFieldsSet, Bool.and_eq_true,
    Option.isSome_iff_exists] at h
  obtain ⟨⟨⟨dc, hdc⟩, ⟨p, hp⟩⟩, ⟨td, htd⟩⟩ := h
  unfold cleanup cleanup_kill cleanup_proc
  rw [hdc, hp, htd]
  cases dc with
  | none => cases htr : p.truthy <;> simp [isOkE, htr]
  | some c =>
      by_cases hc : c = ""
      · subst hc
        cases htr : p.truthy <;> simp [isOkE, htr]
      · simp [isOkE, hc]

/-- After the whole setup pipeline, whether it failed or not, all three
attributes `cleanup` reads are assigned. -/
theorem setup_body_cfields (fe : FsEnv) (cfg : Config) (s : TDState)
    (h : killFieldsSet s = true) :
    cleanupFieldsSet (setup_body fe cfg s).1 = true := by
  unfold setup_body
  refine andThen_pres (fun x => cleanupFieldsSet x = true)
    (setup_directories_cfields fe cfg.dirname cfg.sock_dir s h) ?_
  intro s1 h1
  refine andThen_pres (fun x => cleanupFieldsSet x = true)
    (cfields_congr (docker_init_stage_fields s1) h1) ?_
  intro s2 h2
  refine andThen_pres (fun x => cleanupFieldsSet x = true)
    (create_db_server_cfields fe cfg.initdb cfg.postgres cfg.options s2 h2) ?_
  intro s3 h3
  refine andThen_pres (fun x => cleanupFieldsSet x = true)
    (cfields_congr (docker_exec_stage_fields s3) h3) ?_
  intro s4 h4
  refine andThen_pres (fun x => cleanupFieldsSet x = true)
    (by rw [test_connection_stage_state]; exact h4) ?_
  intro s5 h5
  refine andThen_pres (fun x => cleanupFieldsSet x = true)
    (by rw [create_user_stage_state]; exact h5) ?_
  intro s6 h6
  refine andThen_pres (fun x => cleanupFieldsSet x = true)
    (by rw [create_databases_stage_state]; exact h6) ?_
  intro s7 h7
  exact cfields_congr (docker_restore_stage_fields s7) h7

/-- No stage after `_setup_directories` touches `pg_temp_dir`: the final
value is whatever the directory stage assigned. -/
theorem setup_body_temp_dir (fe : FsEnv) (cfg : Config) (s : TDState) :
    (setup_body fe cfg s).1.pg_temp_dir
      = (setup_directories fe cfg.dirname cfg.sock_dir s).1.pg_temp_dir := by
  unfold setup_body
  refine andThen_pres
    (fun x => x.pg_temp_dir
      = (setup_directories fe cfg.dirname cfg.sock_dir s).1.pg_temp_dir) rfl ?_
  intro s1 h1
  refine andThen_pres
    (fun x => x.pg_temp_dir
      = (setup_directories fe cfg.dirname cfg.sock_dir s).1.pg_temp_dir)
    (by dsimp only; rw [(docker_init_stage_fields s1).2.2]; exact h1) ?_
  intro s2 h2
  refine andThen_pres
    (fun x => x.pg_temp_dir
      = (setup_directories fe cfg.dirname cfg.sock_dir s).1.pg_temp_dir)
    (by dsimp only
        rw [(create_db_server_fields fe cfg.initdb cfg.postgres cfg.options s2).1]
        exact h2) ?_
  intro s3 h3
  refine andThen_pres
    (fun x => x.pg_temp_dir
      = (setup_directories fe cfg.dirname cfg.sock_dir s).1.pg_temp_dir)
    (by dsimp only; rw [(docker_exec_stage_fields s3).2.2]; exact h3) ?_
  intro s4 h4
  refine andThen_pres
    (fun x => x.pg_temp_dir
      = (setup_directories fe cfg.dirname cfg.sock_dir s).1.pg_temp_dir)
    (by rw [test_connection_stage_state]; exact h4) ?_
  intro s5 h5
  refine andThen_pres
    (fun x => x.pg_temp_dir
      = (setup_directories fe cfg.dirname cfg.sock_dir s).1.pg_temp_dir)
    (by rw [create_user_stage_state]; exact h5) ?_
  intro s6 h6
  refine andThen_pres
    (fun x => x.pg_temp_dir
      = (setup_directories fe cfg.dirname cfg.sock_dir s).1.pg_temp_dir)
    (by rw [create_databases_stage_state]; exact h6) ?_
  intro s7 h7
  dsimp only
  rw [(docker_restore_stage_fields s7).2.2]
  exact h7

/-- A successful setup pipeline implies the directory stage succeeded. -/
theorem setup_body_ok_dirs (fe : FsEnv) (cfg : Config) (s : TDState)
    (h : (setup_body fe cfg s).2 = none) :
    (setup_directories fe cfg.dirname cfg.sock_dir s).2 = none := by
  cases hd : (setup_directories fe cfg.dirname cfg.sock_dir s).2 with
  | none => rfl
  | some e =>
      unfold setup_body at h
      rw [andThen_err hd, hd] at h
      cases h

/-- The kill half of cleanup never produces a directory removal. -/
theorem cleanup_kill_no_rmtree (s : TDState) (k : List CleanupAct)
    (h : cleanup_kill s = .ok k) (d : String) (ie : Bool) :
    CleanupAct.rmtree d ie ∉ k := by
  unfold cleanup_kill cleanup_proc at h
  repeat' split at h
  all_goals first
    | (injection h with h1; subst h1; simp)
    | (exact absurd h (by simp))

/-- When the owned-temporary-directory attribute holds `None`, `cleanup`
removes nothing. -/
theorem cleanup_no_rmtree_temp_none (s : TDState) (hs : s.pg_temp_dir = some none)
    (acts : List CleanupAct) (h : (cleanup s).1 = .ok acts) (d : String)
    (ie : Bool) : CleanupAct.rmtree d ie ∉ acts := by
  unfold cleanup at h
  cases hk : cleanup_kill s with
  | error e => rw [hk] at h; cases h
  | ok k =>
      rw [hk, hs] at h
      simp only [rmtreeActs, List.append_nil, Except.ok.injEq] at h
      subst h
      exact cleanup_kill_no_rmtree s k hk d ie

/-- When the owned-temporary-directory attribute holds a non-empty path,
`cleanup` removes it. -/
theorem cleanup_rmtree_mem (s : TDState) (t : String)
    (hs : s.pg_temp_dir = some (some t)) (ht : t ≠ "")
    (acts : List CleanupAct) (h : (cleanup s).1 = .ok acts) :
    CleanupAct.rmtree t true ∈ acts := by
  unfold cleanup at h
  cases hk : cleanup_kill s with
  | error e => rw [hk] at h; cases h
  | ok k =>
      rw [hk, hs] at h
      simp only [rmtreeActs, ht, if_neg, Except.ok.injEq] at h
      subst h
      simp

/-- Inversion: a constructor run that returns an instance had a
successful prologue and a successful setup pipeline. -/
theorem TempDB_init_ok_inv (pe : ProbeEnv) (fe : FsEnv) (cfg : Config)
    (s1 : TDState) (h : (TempDB_init pe fe cfg).2 = .ok s1) :
    ∃ s0 w, init_pre pe cfg = .ok (s0, w) ∧ setup_body fe cfg s0 = (s1, none) := by
  unfold TempDB_init at h
  cases h0 : init_pre pe cfg with
  | error e => rw [h0] at h; simp at h
  | ok p0 =>
      obtain ⟨s0, w⟩ := p0
      rw [h0] at h
      dsimp only at h
      rcases hsb : setup_body fe cfg s0 with ⟨s1x, r2⟩
      rw [hsb] at h
      cases r2 with
      | none =>
          simp only [Except.ok.injEq] at h
          subst h
          exact ⟨s0, w, rfl, hsb⟩
      | some e =>
          dsimp only at h
          cases hcl : (cleanup s1x).1 with
          | ok a => rw [hcl] at h; simp at h
          | error ce => rw [hcl] at h; simp at h

/-- Inversion: the cleanup actions a constructor run reports are either
empty or exactly the actions of `cleanup` on the state of a failed setup
pipeline started from a successful prologue. -/
theorem TempDB_init_acts_inv (pe : ProbeEnv) (fe : FsEnv) (cfg : Config)
    (acts : List CleanupAct) (r : Except PyErr TDState)
    (h : TempDB_init pe fe cfg = (acts, r)) :
    acts = [] ∨ ∃ s0 w s1 e, init_pre pe cfg = .ok (s0, w)
        ∧ setup_body fe cfg s0 = (s1, some e) ∧ (cleanup s1).1 = .ok acts := by
  unfold TempDB_init at h
  cases h0 : init_pre pe cfg with
  | error e =>
      rw [h0] at h
      simp only [Prod.mk.injEq] at h
      exact Or.inl h.1.symm
  | ok p0 =>
      obtain ⟨s0, w⟩ := p0
      rw [h0] at h
      dsimp only at h
      rcases hsb : setup_body fe cfg s0 with ⟨s1x, r2⟩
      rw [hsb] at h
      cases r2 with
      | none =>
          simp only [Prod.mk.injEq] at h
          exact Or.inl h.1.symm
      | some e =>
          dsimp only at h
          cases hcl : (cleanup s1x).1 with
          | ok a =>
              rw [hcl] at h
              simp only [Prod.mk.injEq] at h
              refine Or.inr ⟨s0, w, s1x, e, rfl, hsb, ?_⟩
              rw [hcl, h.1]
          | error ce =>
              rw [hcl] at h
              simp only [Prod.mk.injEq] at h
              exact Or.inl h.1.symm

/-- The final state of a pipeline started with a truthy caller-supplied
base directory records no owned temporary directory. -/
theorem setup_body_temp_none (fe : FsEnv) (cfg : Config) (s0 : TDState)
    (d : String) (hd : cfg.dirname = some d) (hdne : d ≠ "") (s1 : TDState)
    (r2 : Option PyErr) (hsb : setup_body fe cfg s0 = (s1, r2)) :
    s1.pg_temp_dir = some none := by
  have h := setup_body_temp_dir fe cfg s0
  rw [hsb] at h
  simp only at h
  rw [h, hd]
  exact setup_directories_temp_dir_truthy fe d cfg.sock_dir s0 hdne

/-! ### C4 — every setup-stage failure cleans up, then re-raises -/

/-- C4: whenever the prologue succeeded and any setup stage (directory
creation, storage initialization, server launch, readiness probe,
user or database provisioning) raises an exception `e`, the constructor
invokes the full cleanup routine — which succeeds, performing its
actions on the state at the failure point — and re-raises the same `e`
to the caller: the constructor's result is the error, never a partially
set-up instance. -/
theorem setup_failure_cleanup_reraise (pe : ProbeEnv) (fe : FsEnv)
    (cfg : Config) (s0 : TDState) (w : Bool) (e : PyErr)
    (h0 : init_pre pe cfg = .ok (s0, w))
    (hb : (setup_body fe cfg s0).2 = some e) :
    ∃ acts, (cleanup (setup_body fe cfg s0).1).1 = .ok acts
      ∧ TempDB_init pe fe cfg = (acts, .error e) := by
  have hok := cleanup_ok_of_fields (setup_body_cfields fe cfg s0
    (init_pre_kill_fields h0))
  obtain ⟨acts, hacts⟩ : ∃ acts,
      (cleanup (setup_body fe cfg s0).1).1 = .ok acts := by
    cases hcl : (cleanup (setup_body fe cfg s0).1).1 with
    | ok a => exact ⟨a, rfl⟩
    | error e2 => rw [hcl] at hok; simp [isOkE] at hok
  refine ⟨acts, hacts, ?_⟩
  unfold TempDB_init
  rw [h0]
  dsimp only
  rcases hsb : setup_body fe cfg s0 with ⟨s1, r2⟩
  rw [hsb] at hb hacts
  simp only at hb hacts
  subst hb
  dsimp only
  rw [hacts]

/-- C4, witness: `initdb` exiting non-zero (a storage-initialization
failure) leads to cleanup of the allocated temporary directory and the
re-raised `PGSetupError`. -/
theorem setup_failure_cleanup_reraise_witness :
    ∃ acts, (cleanup (setup_body feW cfg0 s0W).1).1 = .ok acts
      ∧ TempDB_init peW feW cfg0
          = (acts, .error (.pgSetupError "Couldn\x27t initialize temp PG data dir")) :=
  setup_failure_cleanup_reraise peW feW cfg0 s0W false
    (.pgSetupError "Couldn\x27t initialize temp PG data dir") (by decide) (by decide)

/-! ### C2 — cleanup safety after partial construction -/

/-- C2, counterexample: before the directory-creation stage — the first
setup stage, which can fail (here `mkdtemp` raises) — is entered, the
instance field `pg_temp_dir` read by `cleanup` has no defined default
value at all: it is first assigned inside that stage.  Invoking
`cleanup` on the stage-entry state would raise `AttributeError`.  This
refutes "every instance field that cleanup reads … has a defined default
value before any setup stage that can fail is entered". -/
theorem cleanup_field_default_gap_cex :
    init_pre peW cfg0 = .ok (s0W, false)
  ∧ s0W.pg_temp_dir = none
  ∧ (cleanup s0W).1 = .error (.attributeError "pg_temp_dir")
  ∧ (setup_body feMkdtempFail cfg0 s0W).2 = some (.osError "mkdtemp") :=
  ⟨by decide, rfl, by decide, by decide⟩

/-- C2, amended: at every point where the program actually invokes
`cleanup()` — the `except` handler of `_setup` (after the directory
stage has assigned `pg_temp_dir` as its first statement) and on the
fully constructed instance — all fields `cleanup` reads are defined and
`cleanup` never raises.  (The `pg_temp_dir` default is assigned as the
first statement *inside* the first fallible stage rather than before
it, and the `pg_process` default only after the fallible docker-fallback
probe, but `cleanup` is unreachable at the points where those fields
are still unset.) -/
theorem cleanup_safe_at_program_invocations (pe : ProbeEnv) (fe : FsEnv)
    (cfg : Config) (s0 : TDState) (w : Bool)
    (h0 : init_pre pe cfg = .ok (s0, w)) :
    isOkE (cleanup (setup_body fe cfg s0).1).1 = true :=
  cleanup_ok_of_fields (setup_body_cfields fe cfg s0 (init_pre_kill_fields h0))

/-- C2 (amended), witness: after the failed construction in the
`initdb`-failure environment, cleanup succeeds. -/
theorem cleanup_safe_at_program_invocations_witness :
    isOkE (cleanup (setup_body feW cfg0 s0W).1).1 = true :=
  cleanup_safe_at_program_invocations peW feW cfg0 s0W false (by decide)

/-! ### C7 — owned temporary directory: removal policy -/

/-- C7: when the caller supplies a truthy base directory (a non-empty
path — Python treats `""` like an absent argument), no invocation of
`cleanup` — neither the one on the constructor's failure path nor any
(repeated) invocation on the constructed instance — ever performs a
recursive directory removal; when the base-directory argument is falsy
(`None` or `""`) the controller allocates the base directory itself via
`mkdtemp`, and cleanup of the constructed instance always removes
exactly that directory. -/
theorem caller_dirname_never_removed (pe : ProbeEnv) (fe : FsEnv)
    (cfg : Config) :
    (∀ d, cfg.dirname = some d → d ≠ "" →
        (∀ acts r, TempDB_init pe fe cfg = (acts, r) →
            ∀ d2 ie, CleanupAct.rmtree d2 ie ∉ acts)
      ∧ (∀ s1, (TempDB_init pe fe cfg).2 = .ok s1 →
          ∀ acts, (cleanup s1).1 = .ok acts →
            (∀ d2 ie, CleanupAct.rmtree d2 ie ∉ acts) ∧ (cleanup s1).2 = s1))
  ∧ (∀ t, pyTruthyS cfg.dirname = false → fe.mkdtemp = .ok t → t ≠ "" →
      ∀ s1, (TempDB_init pe fe cfg).2 = .ok s1 →
        ∃ acts, (cleanup s1).1 = .ok acts ∧ CleanupAct.rmtree t true ∈ acts) := by
  constructor
  · intro d hd hdne
    constructor
    · intro acts r h d2 ie
      rcases TempDB_init_acts_inv pe fe cfg acts r h with hnil | ⟨s0, w, s1, e, h0, hsb, hcl⟩
      · subst hnil; simp
      · exact cleanup_no_rmtree_temp_none s1
          (setup_body_temp_none fe cfg s0 d hd hdne s1 (some e) hsb) acts hcl d2 ie
    · intro s1 h acts hacts
      obtain ⟨s0, w, h0, hsb⟩ := TempDB_init_ok_inv pe fe cfg s1 h
      refine ⟨fun d2 ie => cleanup_no_rmtree_temp_none s1
        (setup_body_temp_none fe cfg s0 d hd hdne s1 none hsb) acts hacts d2 ie, rfl⟩
  · intro t hdn hmk ht s1 h
    obtain ⟨s0, w, h0, hsb⟩ := TempDB_init_ok_inv pe fe cfg s1 h
    have htd : s1.pg_temp_dir = some (some t) := by
      have hx := setup_body_temp_dir fe cfg s0
      rw [hsb] at hx
      simp only at hx
      rw [hx]
      exact setup_directories_temp_dir_falsy fe cfg.dirname cfg.sock_dir s0 t
        hdn hmk
    have hcf := setup_body_cfields fe cfg s0 (init_pre_kill_fields h0)
    rw [hsb] at hcf
    simp only at hcf
    have hok := cleanup_ok_of_fields hcf
    obtain ⟨acts, hacts⟩ : ∃ acts, (cleanup s1).1 = .ok acts := by
      cases hcl : (cleanup s1).1 with
      | ok a => exact ⟨a, rfl⟩
      | error e2 => rw [hcl] at hok; simp [isOkE] at hok
    exact ⟨acts, hacts, cleanup_rmtree_mem s1 t htd ht acts hacts⟩

/-- C7, witness: with a caller-supplied non-empty base directory and a
failing `initdb`, the failure-path cleanup removes no directory; with
the default configuration (falsy base-directory argument) and a
successful construction, cleanup removes exactly the allocated
temporary directory. -/
theorem caller_dirname_never_removed_witness :
    (∀ acts r, TempDB_init peW feW cfgDirW = (acts, r) →
        ∀ d2 ie, CleanupAct.rmtree d2 ie ∉ acts)
  ∧ (∀ s1, (TempDB_init peW feOk cfg0).2 = .ok s1 →
      ∃ acts, (cleanup s1).1 = .ok acts
        ∧ CleanupAct.rmtree "/tmp/pg_tmp_x" true ∈ acts) :=
  ⟨((caller_dirname_never_removed peW feW cfgDirW).1 "/home/tester/base" rfl
      (by decide)).1,
   fun s1 h => (caller_dirname_never_removed peW feOk cfg0).2 "/tmp/pg_tmp_x"
     (by decide) rfl (by decide) s1 h⟩
